import Mathlib

/-
  Verification development for the BigQuery project export/import tool.
  Shallow embedding of src/main.py, src/base.py, src/exporter.py,
  src/importer.py and src/utils.py.  Each definition's doc comment names
  the source function and lines it embeds.
-/

set_option maxRecDepth 4000

/-! ## String primitives (Python semantics) -/

/-- Single left-to-right pass of Python str.replace(pat, "") over a character
list, with explicit fuel (one unit per step; fuel = length suffices because
every step consumes at least one character when pat is nonempty). -/
def pyReplaceFuel (pat : List Char) : Nat → List Char → List Char
  | 0, s => s
  | _ + 1, [] => []
  | fuel + 1, c :: rest =>
    if pat.isPrefixOf (c :: rest) then
      pyReplaceFuel pat fuel ((c :: rest).drop pat.length)
    else
      c :: pyReplaceFuel pat fuel rest

/-- Python s.replace(pat, ""): delete every left-to-right non-overlapping
occurrence of pat from s (no rescan of spliced text). -/
def pyRemoveAll (pat s : List Char) : List Char :=
  if pat.isEmpty then s else pyReplaceFuel pat s.length s

/-- Python pattern-in-string test: some suffix of s starts with pat. -/
def occursIn (pat : List Char) : List Char → Bool
  | [] => pat.isEmpty
  | c :: rest => pat.isPrefixOf (c :: rest) || occursIn pat rest

/-- The qualifier stripping used throughout src/exporter.py (lines 73, 96,
169): text.replace(project_id + ".", ""). -/
def stripQualifier (pid q : String) : String :=
  ⟨pyRemoveAll (pid ++ ".").toList q.toList⟩

/-- Python s.endswith(suf). -/
def strEndsWith (suf s : String) : Bool :=
  suf.toList.isSuffixOf s.toList

/-- Auxiliary for Python str.split(sep) with a single-character separator. -/
def splitOnCharAux (sep : Char) : List Char → List Char → List (List Char)
  | [], acc => [acc.reverse]
  | c :: rest, acc =>
    if c == sep then acc.reverse :: splitOnCharAux sep rest []
    else splitOnCharAux sep rest (c :: acc)

/-- Python blob.name.split('/'). -/
def pySplitSlash (s : String) : List String :=
  (splitOnCharAux '/' s.toList []).map (fun l => ⟨l⟩)

/-! ## Cross-project reference detection (src/exporter.py lines 12-23)

The regex r'`([^`]+)\.\w+\.\w+`' of log_projects_in_sql_query matches iff
the text has two backticks whose enclosed content decomposes as
X ++ "." ++ w1 ++ "." ++ w2 with X nonempty and backtick-free and w1, w2
nonempty runs of word characters. -/

def isWordChar (c : Char) : Bool := c.isAlphanum || c == '_'

/-- Characters of l strictly between positions i and j. -/
def sliceList (l : List Char) (i j : Nat) : List Char := (l.take j).drop i

/-- Does the content between two backticks decompose as the regex body
([^`]+)\.\w+\.\w+ demands (with backtracking, i.e. existentially)? -/
def midMatchesProjRef (m : List Char) : Bool :=
  (List.range m.length).any (fun d1 =>
    (List.range m.length).any (fun d2 =>
      decide (0 < d1) && decide (d1 + 1 < d2) && decide (d2 + 1 < m.length) &&
      (m.getD d1 ' ' == '.') && (m.getD d2 ' ' == '.') &&
      (sliceList m 0 d1).all (fun c => !(c == '`')) &&
      (sliceList m (d1 + 1) d2).all isWordChar &&
      (sliceList m (d2 + 1) m.length).all isWordChar))

/-- re.findall(r'`([^`]+)\.\w+\.\w+`', s) is nonempty. -/
def hasProjRef (s : List Char) : Bool :=
  (List.range s.length).any (fun i =>
    (List.range s.length).any (fun j =>
      decide (i < j) && (s.getD i ' ' == '`') && (s.getD j ' ' == '`') &&
      midMatchesProjRef (sliceList s (i + 1) j)))

/-! ## Data model: live warehouse objects and serialized records -/

/-- A routine argument; data_type stands for the to_api_repr() rendering. -/
structure RoutineArg where
  name : String
  data_type : String
  mode : String
deriving DecidableEq, Repr

/-- A live BigQuery routine as the exporter sees it (list_routines entry
together with the get_routine metadata fetch, src/exporter.py lines 69-81). -/
structure LiveRoutine where
  routine_id : String
  type_ : String
  language : String
  body : String
  arguments : List RoutineArg
  created : Option String
  modified : Option String
  description : Option String
deriving DecidableEq, Repr

/-- The routine record persisted by BigQueryUtils.serialize_routine
(src/utils.py lines 7-24). -/
structure RoutineRec where
  routine_id : String
  type_ : String
  language : String
  body : String
  arguments : List RoutineArg
  created : Option String
  modified : Option String
  description : Option String
deriving DecidableEq, Repr

/-- src/utils.py lines 7-24: serialize_routine. -/
def serialize_routine (r : LiveRoutine) : RoutineRec :=
  { routine_id := r.routine_id
  , type_ := r.type_
  , language := r.language
  , body := r.body
  , arguments := r.arguments
  , created := r.created
  , modified := r.modified
  , description := r.description }

/-- A live view (a Table object of type VIEW); schema entries stand for the
field.to_api_repr() renderings. -/
structure LiveView where
  table_id : String
  view_query : String
  description : Option String
  created : Option String
  modified : Option String
  schema : List String
deriving DecidableEq, Repr

/-- The view record persisted by BigQueryUtils.serialize_view
(src/utils.py lines 26-35). -/
structure ViewRec where
  table_id : String
  view_query : String
  description : Option String
  created : Option String
  modified : Option String
  schema : List String
deriving DecidableEq, Repr

/-- src/utils.py lines 26-35: serialize_view. -/
def serialize_view (v : LiveView) : ViewRec :=
  { table_id := v.table_id
  , view_query := v.view_query
  , description := v.description
  , created := v.created
  , modified := v.modified
  , schema := v.schema }

/-- A live external table; external_data_configuration stands for its
to_api_repr() rendering. -/
structure LiveExtTable where
  table_id : String
  schema : List String
  external_data_configuration : String
  description : Option String
  created : Option String
  modified : Option String
deriving DecidableEq, Repr

/-- The external-table record persisted by
BigQueryUtils.serialize_external_table (src/utils.py lines 37-46). -/
structure ExtTableRec where
  table_id : String
  schema : List String
  external_data_configuration : String
  description : Option String
  created : Option String
  modified : Option String
deriving DecidableEq, Repr

/-- src/utils.py lines 37-46: serialize_external_table. -/
def serialize_external_table (t : LiveExtTable) : ExtTableRec :=
  { table_id := t.table_id
  , schema := t.schema
  , external_data_configuration := t.external_data_configuration
  , description := t.description
  , created := t.created
  , modified := t.modified }

/-- A live transfer config (scheduled query) as returned by the data
transfer service; params is the proto Struct as an association list,
opaque sub-messages stand for their serialize_message renderings. -/
structure LiveTransfer where
  name : String
  display_name : String
  data_source_id : String
  params : List (String × String)
  schedule : String
  schedule_options : Option String
  destination_dataset_id : String
  disabled : Bool
  update_time : Option String
  next_run_time : Option String
  state : Option String
  user_id : Int
  dataset_region : String
  notification_pubsub_topic : String
  email_preferences : Option String
deriving DecidableEq, Repr

/-- The scheduled-query record persisted by
BigQueryUtils.serialize_scheduled_query (src/utils.py lines 48-78). -/
structure TransferRec where
  name : String
  display_name : String
  data_source_id : String
  params : List (String × String)
  params_query : Option String
  schedule : String
  schedule_options : Option String
  destination_dataset_id : String
  disabled : Bool
  update_time : Option String
  next_run_time : Option String
  state : Option String
  user_id : Int
  dataset_region : String
  notification_pubsub_topic : String
  email_preferences : Option String
deriving DecidableEq, Repr

/-- Python dict .get on the params association list. -/
def lookupParam (params : List (String × String)) (k : String) : Option String :=
  (params.find? (fun p => p.1 == k)).map (fun p => p.2)

/-- src/utils.py lines 48-78: serialize_scheduled_query.  The line
params_query := ... mirrors "transfer.params.get('query') if transfer.params
else None". -/
def serialize_scheduled_query (t : LiveTransfer) : TransferRec :=
  { name := t.name
  , display_name := t.display_name
  , data_source_id := t.data_source_id
  , params := t.params
  , params_query := if t.params.isEmpty then none else lookupParam t.params ("query")
  , schedule := t.schedule
  , schedule_options := t.schedule_options
  , destination_dataset_id := t.destination_dataset_id
  , disabled := t.disabled
  , update_time := t.update_time
  , next_run_time := t.next_run_time
  , state := t.state
  , user_id := t.user_id
  , dataset_region := t.dataset_region
  , notification_pubsub_topic := t.notification_pubsub_topic
  , email_preferences := t.email_preferences }

/-! ## Reconstruction at import time (src/importer.py) -/

/-- The bigquery.Routine object built by BigQueryImporter.import_routines
(src/importer.py lines 43-55). -/
structure CreatedRoutine where
  full_id : String
  type_ : String
  language : String
  body : String
  location : String
  arguments : List RoutineArg
  description : Option String
deriving DecidableEq, Repr

/-- src/importer.py lines 43-55: rebuild a routine from its record. -/
def deserialize_routine (pid ds region : String) (r : RoutineRec) : CreatedRoutine :=
  { full_id := pid ++ "." ++ ds ++ "." ++ r.routine_id
  , type_ := r.type_
  , language := r.language
  , body := r.body
  , location := region
  , arguments := r.arguments
  , description := r.description }

/-- The bigquery.Table object built by BigQueryImporter.import_views
(src/importer.py lines 69-71). -/
structure CreatedView where
  full_id : String
  view_query : String
  description : Option String
deriving DecidableEq, Repr

/-- src/importer.py lines 69-71: rebuild a view from its record. -/
def deserialize_view (pid ds : String) (r : ViewRec) : CreatedView :=
  { full_id := pid ++ "." ++ ds ++ "." ++ r.table_id
  , view_query := r.view_query
  , description := r.description }

/-- The bigquery.Table object built by BigQueryImporter.import_external_tables
(src/importer.py lines 86-91). -/
structure CreatedExtTable where
  full_id : String
  schema : List String
  external_data_configuration : String
  description : Option String
deriving DecidableEq, Repr

/-- src/importer.py lines 86-91: rebuild an external table from its record. -/
def deserialize_external_table (pid ds : String) (r : ExtTableRec) : CreatedExtTable :=
  { full_id := pid ++ "." ++ ds ++ "." ++ r.table_id
  , schema := r.schema
  , external_data_configuration := r.external_data_configuration
  , description := r.description }

/-- The TransferConfig creation request built by
BigQueryImporter.import_scheduled_queries (src/importer.py lines 129-143). -/
structure CreatedTransfer where
  parent : String
  display_name : String
  data_source_id : String
  params : List (String × Option String)
  schedule : String
  destination_dataset_id : String
  disabled : Bool
deriving DecidableEq, Repr

/-- src/importer.py lines 129-143: rebuild a scheduled query from its record;
parent is "projects/{pid}/locations/{self.region}" and only six record
fields are consulted. -/
def deserialize_scheduled_query (pid region : String) (r : TransferRec) : CreatedTransfer :=
  { parent := "projects/" ++ pid ++ "/locations/" ++ region
  , display_name := r.display_name
  , data_source_id := r.data_source_id
  , params := [(("query"), r.params_query)]
  , schedule := r.schedule
  , destination_dataset_id := r.destination_dataset_id
  , disabled := r.disabled }

/-! ## Bucket initialization (src/base.py lines 10-33) -/

inductive LookupOutcome
  | found
  | notFound
  | forbidden
deriving DecidableEq, Repr

inductive CreateOutcome
  | created
  | conflict
deriving DecidableEq, Repr

/-- Operations BigQueryBase.__init__ performs against the storage service. -/
inductive InitOp
  | getBucketOp
  | createBucketOp
deriving DecidableEq, Repr

inductive InitErr
  | forbiddenErr
  | conflictErr
deriving DecidableEq, Repr

/-- The resolved bucket; location is some region exactly when the bucket was
created by this run (create_bucket with location=self.region). -/
structure BucketState where
  name : String
  location : Option String
deriving DecidableEq, Repr

structure InitOutcome where
  result : Except InitErr BucketState
  ops : List InitOp
deriving Repr

/-- src/base.py lines 10-33: get_bucket with NotFound falling through to
create_bucket(location=region); Forbidden on lookup and Conflict on create
re-raise. -/
def bigquery_base_init (bucket_name region : String)
    (lookup : LookupOutcome) (create : CreateOutcome) : InitOutcome :=
  match lookup with
  | .found =>
    { result := .ok { name := bucket_name, location := none }
    , ops := [.getBucketOp] }
  | .forbidden =>
    { result := .error .forbiddenErr
    , ops := [.getBucketOp] }
  | .notFound =>
    match create with
    | .created =>
      { result := .ok { name := bucket_name, location := some region }
      , ops := [.getBucketOp, .createBucketOp] }
    | .conflict =>
      { result := .error .conflictErr
      , ops := [.getBucketOp, .createBucketOp] }

/-! ## The world a run observes (live project + bucket) -/

/-- A list_tables entry (table_id and table_type as reported by BigQuery). -/
structure TableEntry where
  table_id : String
  table_type : String
deriving DecidableEq, Repr

/-- External services as a fixed snapshot: the live project's datasets and
tables, the bucket's blob listings and the parsed content of config blobs.
Both count_tasks and the run read through this one snapshot. -/
structure World where
  liveDatasets : List String
  liveTables : String → List TableEntry
  bucketBlobs : List String
  blobsUnder : String → List String
  configDatasets : String → List String

/-- Distinct table ids discovered from parquet blob names under
"{dataset_id}/" — the expression shared by src/main.py lines 50-52 and
src/importer.py lines 185-186 (set comprehension over split('/')[1]). -/
def parquetTableIds (w : World) (ds : String) : List String :=
  ((((w.blobsUnder (ds ++ "/")).filter
      (fun n => strEndsWith (".parquet") n)).map
      (fun n => (pySplitSlash n).getD 1 (""))).dedup)

/-- src/main.py lines 31-56: count_tasks.  config_datasets is
config['datasets'] as passed by the caller (main.py line 91 passes the live
project's dataset list in both modes). -/
def count_tasks (w : World) (config_datasets : List String)
    (components : List String) (operation : String) : Nat :=
  let t1 := if ("routines") ∈ components then config_datasets.length else 0
  let t2 := t1 + (if ("views") ∈ components then config_datasets.length else 0)
  let t3 := t2 + (if ("external_tables") ∈ components then config_datasets.length else 0)
  let t4 := t3 + (if ("tables") ∈ components then
      (config_datasets.map (fun ds =>
        (if operation = "export" then
          ((w.liveTables ds).filter (fun t => t.table_type == "TABLE")).length
        else 0) +
        (if operation = "import" then (parquetTableIds w ds).length else 0))).sum
    else 0)
  t4 + (if ("scheduled_queries") ∈ components then 1 else 0)

/-! ## Task execution model

Every per-task function in src/exporter.py and src/importer.py has the shape
try-body / except-log / finally-progress_bar.update(1), so a task performs
exactly one progress increment whether it succeeds or fails.  The one
deviation is export_scheduled_queries (src/exporter.py lines 183-187) whose
except clause logs and then re-raises before its finally-update runs. -/

structure TaskResult where
  succeeded : Bool
  raised : Bool
  updates : Nat
deriving DecidableEq, Repr

/-- try / except-log (swallow) / finally update(1): src/exporter.py lines
67-88, 90-106, 108-118, 120-149 and src/importer.py lines 39-62, 64-80,
82-98, 100-121, 123-151. -/
def runCaughtTask (fails : Bool) : TaskResult :=
  if fails then { succeeded := false, raised := false, updates := 1 }
  else { succeeded := true, raised := false, updates := 1 }

/-- try / except-log-and-reraise / finally update(1): src/exporter.py lines
151-187 (export_scheduled_queries). -/
def runSchedExportTask (fails : Bool) : TaskResult :=
  if fails then { succeeded := false, raised := true, updates := 1 }
  else { succeeded := true, raised := false, updates := 1 }

/-- The unit of scheduling work submitted by export_project
(src/exporter.py lines 197-214). -/
inductive ExportTask
  | routinesTask (ds : String)
  | viewsTask (ds : String)
  | extTablesTask (ds : String)
  | tableTask (ds : String) (tbl : String)
  | schedTask
deriving DecidableEq, Repr

/-- The tasks export_project submits for one dataset, in submission order
(src/exporter.py lines 200-211). -/
def exportDatasetTasks (w : World) (c : List String) (ds : String) : List ExportTask :=
  (if ("routines") ∈ c then [.routinesTask ds] else [])
  ++ (if ("views") ∈ c then [.viewsTask ds] else [])
  ++ (if ("external_tables") ∈ c then [.extTablesTask ds] else [])
  ++ (if ("tables") ∈ c then
        ((w.liveTables ds).filter (fun t => t.table_type == "TABLE")).map
          (fun t => .tableTask ds t.table_id)
      else [])

/-- Fold of exportDatasetTasks over the dataset loop of export_project. -/
def exportTasksOf (w : World) (c : List String) : List String → List ExportTask
  | [] => []
  | ds :: rest => exportDatasetTasks w c ds ++ exportTasksOf w c rest

/-- All tasks of one export run (src/exporter.py lines 189-226); the
scheduled-queries task runs on the orchestrating thread but is one more
task with one more finally-update. -/
def exportTaskList (w : World) (c : List String) : List ExportTask :=
  exportTasksOf w c w.liveDatasets
  ++ (if ("scheduled_queries") ∈ c then [.schedTask] else [])

/-- Dispatch a task to its handler shape; fails t says whether the body of
task t raises at a point not covered by one of its inner handlers. -/
def exportTaskRun (fails : ExportTask → Bool) : ExportTask → TaskResult
  | .schedTask => runSchedExportTask (fails .schedTask)
  | t => runCaughtTask (fails t)

/-- Total progress-bar increments of one export run.  Even when
export_scheduled_queries re-raises, the with-block joins the pool before
propagating, so every submitted task still runs its finally-update. -/
def exportIncrements (w : World) (c : List String) (fails : ExportTask → Bool) : Nat :=
  ((exportTaskList w c).map (fun t => (exportTaskRun fails t).updates)).sum

/-- Does export_project return normally?  Pool task errors are swallowed
twice (inside the task and at future.result(), src/exporter.py lines
216-220); only a re-raise out of export_scheduled_queries escapes
(src/exporter.py lines 213-214). -/
def exportRunCompletes (c : List String) (fails : ExportTask → Bool) : Bool :=
  !(decide (("scheduled_queries") ∈ c) && (exportTaskRun fails .schedTask).raised)

/-! ## Detailed export task bodies -/

structure RoutinesTaskOut where
  persisted : List RoutineRec
  skippedIds : List String
  reportedCount : Nat
  succeeded : Bool
  updates : Nat
deriving DecidableEq, Repr

/-- The serialization loop of export_routines (src/exporter.py lines 71-81):
strip the qualifier from the body, skip the routine when the fetched body is
empty, otherwise serialize with the stripped body. -/
def exportRoutinesSerialize (pid : String) : List LiveRoutine → List RoutineRec
  | [] => []
  | r :: rest =>
    if r.body = "" then exportRoutinesSerialize pid rest
    else serialize_routine { r with body := stripQualifier pid r.body }
         :: exportRoutinesSerialize pid rest

/-- Ids of the routines skipped for an empty body (warning logged,
src/exporter.py lines 78-80). -/
def exportRoutinesSkipped : List LiveRoutine → List String
  | [] => []
  | r :: rest =>
    if r.body = "" then r.routine_id :: exportRoutinesSkipped rest
    else exportRoutinesSkipped rest

/-- src/exporter.py lines 67-88: export_routines on a dataset whose fetches
succeed; the logged count is len(serialized_routines) (line 84). -/
def export_routines_run (pid : String) (routines : List LiveRoutine) : RoutinesTaskOut :=
  let recs := exportRoutinesSerialize pid routines
  { persisted := recs
  , skippedIds := exportRoutinesSkipped routines
  , reportedCount := recs.length
  , succeeded := true
  , updates := 1 }

structure ViewsTaskOut where
  persisted : List ViewRec
  warnedIds : List String
  succeeded : Bool
  updates : Nat
deriving DecidableEq, Repr

/-- src/exporter.py lines 90-106: export_views on a dataset whose fetches
succeed: strip each view query, log a cross-project warning on the stripped
text when the backtick pattern still matches, serialize and persist. -/
def export_views_run (pid : String) (views : List LiveView) : ViewsTaskOut :=
  let processed := views.map (fun v => { v with view_query := stripQualifier pid v.view_query })
  { persisted := processed.map serialize_view
  , warnedIds := (processed.filter (fun v => hasProjRef v.view_query.toList)).map
      (fun v => v.table_id)
  , succeeded := true
  , updates := 1 }

/-- Python query.params['query'] = query.params['query'].replace(pid + ".", "")
(src/exporter.py line 169) on the association-list model of params. -/
def stripQueryParam (pid : String) (params : List (String × String)) : List (String × String) :=
  params.map (fun p => if p.1 == "query" then (p.1, stripQualifier pid p.2) else p)

/-- The records accumulated by export_scheduled_queries for one region's
transfers (src/exporter.py lines 161-172): keep data_source_id ==
'scheduled_query', strip the query param, serialize. -/
def export_scheduled_queries_records (pid : String) (transfers : List LiveTransfer) :
    List TransferRec :=
  (transfers.filter (fun t => t.data_source_id == "scheduled_query")).map
    (fun t => serialize_scheduled_query { t with params := stripQueryParam pid t.params })

/-! ## Import pipeline -/

/-- src/importer.py lines 161-166: first blob whose name ends with
'_config.json', in listing order. -/
def findConfigBlob (w : World) : Option String :=
  w.bucketBlobs.find? (fun n => strEndsWith ("_config.json") n)

/-- src/importer.py lines 161-171: abort with FileNotFoundError when no
config blob exists, otherwise read the first one found. -/
def import_project_config (w : World) : Except String (List String) :=
  match findConfigBlob w with
  | none => .error ("Configuration file with config-json suffix not found in the bucket")
  | some nm => .ok (w.configDatasets nm)

/-- Observable steps of import_project in program order
(src/importer.py lines 173-205). -/
inductive ImportEvent
  | ensureDataset (ds : String)
  | tableLoad (ds : String) (tbl : String)
  | extTablesTask (ds : String)
  | viewsTask (ds : String)
  | routinesTask (ds : String)
  | schedImport
deriving DecidableEq, Repr

/-- Steps for one dataset: ensure it exists, then table loads (pool, joined
before moving on), then external tables, then views, then routines
(src/importer.py lines 173-202). -/
def importDatasetTrace (w : World) (c : List String) (ds : String) : List ImportEvent :=
  ImportEvent.ensureDataset ds ::
  ((if ("tables") ∈ c then (parquetTableIds w ds).map (ImportEvent.tableLoad ds) else [])
   ++ (if ("external_tables") ∈ c then [.extTablesTask ds] else [])
   ++ (if ("views") ∈ c then [.viewsTask ds] else [])
   ++ (if ("routines") ∈ c then [.routinesTask ds] else []))

/-- The dataset loop of import_project. -/
def importDatasetsTrace (w : World) (c : List String) : List String → List ImportEvent
  | [] => []
  | ds :: rest => importDatasetTrace w c ds ++ importDatasetsTrace w c rest

/-- Full run trace: nothing happens when the config blob is missing; the
scheduled-queries import runs once, after the dataset loop
(src/importer.py lines 204-205). -/
def importTrace (w : World) (c : List String) : List ImportEvent :=
  match findConfigBlob w with
  | none => []
  | some nm =>
    importDatasetsTrace w c (w.configDatasets nm)
    ++ (if ("scheduled_queries") ∈ c then [.schedImport] else [])

/-- Progress updates happen at task boundaries (not for dataset creation). -/
def isTaskEvent : ImportEvent → Bool
  | .ensureDataset _ => false
  | _ => true

/-- Total progress-bar increments of one import run: one finally-update per
task event, whatever the task outcome. -/
def importIncrements (w : World) (c : List String) (fails : ImportEvent → Bool) : Nat :=
  (((importTrace w c).filter isTaskEvent).map (fun e => (runCaughtTask (fails e)).updates)).sum

/-- Does import_project return normally once started?  Every per-object and
per-task error is swallowed inside the task functions; only a missing config
blob aborts (src/importer.py lines 168-169). -/
def importRunCompletes (w : World) : Bool :=
  (findConfigBlob w).isSome

/-! ## Per-kind import loops (failure granularity, src/importer.py) -/

/-- src/importer.py lines 67-75: the view loop has an inner try/except, so a
failing create is logged and the loop continues with the next view. -/
def import_views_loop (pid ds : String) (createFails : ViewRec → Bool) :
    List ViewRec → List CreatedView
  | [] => []
  | v :: rest =>
    if createFails v then import_views_loop pid ds createFails rest
    else deserialize_view pid ds v :: import_views_loop pid ds createFails rest

/-- src/importer.py lines 42-56: the routine loop has no inner handler, so
the first failing create_routine raises to the task-level except and the
remaining routines of the dataset are not created. -/
def import_routines_loop (pid ds region : String) (createFails : RoutineRec → Bool) :
    List RoutineRec → List CreatedRoutine
  | [] => []
  | r :: rest =>
    if createFails r then []
    else deserialize_routine pid ds region r :: import_routines_loop pid ds region createFails rest

/-- src/importer.py lines 85-92: like routines, the external-table loop has
no inner handler; the first failing create_table aborts the rest. -/
def import_ext_tables_loop (pid ds : String) (createFails : ExtTableRec → Bool) :
    List ExtTableRec → List CreatedExtTable
  | [] => []
  | t :: rest =>
    if createFails t then []
    else deserialize_external_table pid ds t :: import_ext_tables_loop pid ds createFails rest

/-! ## Concrete instances used in counterexamples and witnesses -/

/-- An import-mode run against a fresh destination project: the live project
has no datasets yet, while the bucket's config blob lists one. -/
def cx1World : World :=
  { liveDatasets := []
  , liveTables := fun _ => []
  , bucketBlobs := [("p_config.json")]
  , blobsUnder := fun _ => []
  , configDatasets := fun _ => [("ds1")] }

/-- A world whose live dataset list and bucket config agree. -/
def wWorld : World :=
  { liveDatasets := [("d1"), ("d2")]
  , liveTables := fun _ => []
  , bucketBlobs := [("p_config.json")]
  , blobsUnder := fun _ => []
  , configDatasets := fun _ => [("d1"), ("d2")] }

/-- A bucket holding two project-config blobs (ambiguous config). -/
def cx2World : World :=
  { liveDatasets := []
  , liveTables := fun _ => []
  , bucketBlobs := [("a_config.json"), ("b_config.json")]
  , blobsUnder := fun _ => []
  , configDatasets := fun _ => [] }

/-- A view carrying a nonempty schema in its persisted record. -/
def cxViewA : LiveView :=
  { table_id := "v1", view_query := "q", description := none
  , created := none, modified := none, schema := [("fieldA")] }

/-- The same view with the schema emptied. -/
def cxViewB : LiveView :=
  { table_id := "v1", view_query := "q", description := none
  , created := none, modified := none, schema := [] }

/-- A view whose query splices into a fresh qualifier occurrence when the
project id "ab" is stripped: "aab.b." loses its one occurrence of "ab." and
becomes "ab.". -/
def cx6View : LiveView :=
  { table_id := "v1", view_query := "aab.b.", description := none
  , created := none, modified := none, schema := [] }

def mkWitnessRoutine (i b : String) : LiveRoutine :=
  { routine_id := i, type_ := "SCALAR_FUNCTION", language := "SQL", body := b
  , arguments := [], created := none, modified := none, description := none }

def wViewRec (i : String) : ViewRec :=
  { table_id := i, view_query := "SELECT 1", description := none
  , created := none, modified := none, schema := [] }

def wRoutineRec (i : String) : RoutineRec :=
  { routine_id := i, type_ := "SCALAR_FUNCTION", language := "SQL", body := "SELECT 1"
  , arguments := [], created := none, modified := none, description := none }

def wExtRec (i : String) : ExtTableRec :=
  { table_id := i, schema := [], external_data_configuration := "cfg"
  , description := none, created := none, modified := none }

/-- A scheduled-query record. -/
def wTransferRecA : TransferRec :=
  { name := "tcA", display_name := "daily", data_source_id := "scheduled_query"
  , params := [(("query"), ("SELECT 1"))], params_query := some ("SELECT 1")
  , schedule := "every 24 hours", schedule_options := some ("optsA")
  , destination_dataset_id := "ds", disabled := false
  , update_time := some ("2024-01-01"), next_run_time := none, state := some ("SUCCEEDED")
  , user_id := 7, dataset_region := "europe-north1"
  , notification_pubsub_topic := "topicA", email_preferences := none }

/-- Agrees with wTransferRecA on exactly the six fields the importer reads,
and differs everywhere else (including dataset_region). -/
def wTransferRecB : TransferRec :=
  { name := "tcB", display_name := "daily", data_source_id := "scheduled_query"
  , params := [], params_query := some ("SELECT 1")
  , schedule := "every 24 hours", schedule_options := none
  , destination_dataset_id := "ds", disabled := false
  , update_time := none, next_run_time := some ("2030-01-01"), state := none
  , user_id := 9, dataset_region := "US"
  , notification_pubsub_topic := "topicB", email_preferences := some ("emails") }

/-- The default full component set (src/main.py line 92). -/
def cAllComponents : List String :=
  [("routines"), ("views"), ("external_tables"), ("tables"), ("scheduled_queries")]

/-- A live scheduled query used to instantiate witnesses. -/
def wLiveTransfer : LiveTransfer :=
  { name := "tc1", display_name := "daily", data_source_id := "scheduled_query"
  , params := [(("query"), ("SELECT 1"))], schedule := "every 24 hours"
  , schedule_options := none, destination_dataset_id := "ds", disabled := false
  , update_time := none, next_run_time := none, state := none, user_id := 1
  , dataset_region := "europe-north1", notification_pubsub_topic := ""
  , email_preferences := none }

/-! ## Temporal ordering machinery -/

/-- Which dataset an import event belongs to. -/
def evDataset : ImportEvent → Option String
  | .ensureDataset ds => some ds
  | .tableLoad ds _ => some ds
  | .extTablesTask ds => some ds
  | .viewsTask ds => some ds
  | .routinesTask ds => some ds
  | .schedImport => none


/-- In trace tr, every P-event occurs strictly before every Q-event. -/
def allBefore {α : Type} (tr : List α) (P Q : α → Prop) : Prop :=
  ∀ (i j : Nat) (e1 e2 : α), tr[i]? = some e1 → tr[j]? = some e2 → P e1 → Q e2 → i < j

theorem allBefore_of_noP {α : Type} {l : List α} {P Q : α → Prop}
    (h : ∀ e ∈ l, ¬ P e) : allBefore l P Q := by
  intro i j e1 e2 h1 _ hp _
  exact absurd hp (h e1 (List.getElem?_mem h1))

/-- P-events live only in xs and Q-events only in ys, so P comes first. -/
theorem allBefore_of_sep {α : Type} {xs ys : List α} {P Q : α → Prop}
    (hQ : ∀ e ∈ xs, ¬ Q e) (hP : ∀ e ∈ ys, ¬ P e) :
    allBefore (xs ++ ys) P Q := by
  intro i j e1 e2 h1 h2 hp hq
  rw [List.getElem?_append] at h1 h2
  by_cases hi : i < xs.length
  · by_cases hj : j < xs.length
    · rw [if_pos hj] at h2
      exact absurd hq (hQ e2 (List.getElem?_mem h2))
    · omega
  · rw [if_neg hi] at h1
    exact absurd hp (hP e1 (List.getElem?_mem h1))

/-- A prefix containing neither P- nor Q-events can be prepended. -/
theorem allBefore_append_right {α : Type} {xs ys : List α} {P Q : α → Prop}
    (hxs : ∀ e ∈ xs, ¬ P e ∧ ¬ Q e) (h : allBefore ys P Q) :
    allBefore (xs ++ ys) P Q := by
  intro i j e1 e2 h1 h2 hp hq
  rw [List.getElem?_append] at h1 h2
  by_cases hi : i < xs.length
  · rw [if_pos hi] at h1
    exact absurd hp (hxs e1 (List.getElem?_mem h1)).1
  · by_cases hj : j < xs.length
    · rw [if_pos hj] at h2
      exact absurd hq (hxs e2 (List.getElem?_mem h2)).2
    · rw [if_neg hi] at h1
      rw [if_neg hj] at h2
      have := h (i - xs.length) (j - xs.length) e1 e2 h1 h2 hp hq
      omega

/-- A suffix containing neither P- nor Q-events can be appended. -/
theorem allBefore_append_left {α : Type} {xs ys : List α} {P Q : α → Prop}
    (hys : ∀ e ∈ ys, ¬ P e ∧ ¬ Q e) (h : allBefore xs P Q) :
    allBefore (xs ++ ys) P Q := by
  intro i j e1 e2 h1 h2 hp hq
  rw [List.getElem?_append] at h1 h2
  by_cases hi : i < xs.length
  · by_cases hj : j < xs.length
    · rw [if_pos hi] at h1
      rw [if_pos hj] at h2
      exact h i j e1 e2 h1 h2 hp hq
    · rw [if_neg hj] at h2
      exact absurd hq (hys e2 (List.getElem?_mem h2)).2
  · rw [if_neg hi] at h1
    exact absurd hp (hys e1 (List.getElem?_mem h1)).1

theorem mem_of_mem_ite_nil {α : Type} {b : Prop} [Decidable b] {l : List α} {e : α}
    (h : e ∈ (if b then l else [])) : e ∈ l := by
  split at h
  · exact h
  · simp at h

theorem evDataset_of_mem_block {w : World} {c : List String} {ds : String} {e : ImportEvent}
    (h : e ∈ importDatasetTrace w c ds) : evDataset e = some ds := by
  unfold importDatasetTrace at h
  rcases List.mem_cons.mp h with he | h
  · subst he; rfl
  rcases List.mem_append.mp h with h | h
  rotate_left
  · have he := mem_of_mem_ite_nil h
    rw [List.mem_singleton] at he
    subst he; rfl
  rcases List.mem_append.mp h with h | h
  rotate_left
  · have he := mem_of_mem_ite_nil h
    rw [List.mem_singleton] at he
    subst he; rfl
  rcases List.mem_append.mp h with h | h
  · obtain ⟨t, _, he⟩ := List.mem_map.mp (mem_of_mem_ite_nil h)
    subst he; rfl
  · have he := mem_of_mem_ite_nil h
    rw [List.mem_singleton] at he
    subst he; rfl

theorem evDataset_of_mem_datasetsTrace {w : World} {c : List String} {e : ImportEvent} :
    ∀ {dss : List String}, e ∈ importDatasetsTrace w c dss → ∃ ds ∈ dss, evDataset e = some ds := by
  intro dss
  induction dss with
  | nil => intro h; simp [importDatasetsTrace] at h
  | cons d rest ih =>
    intro h
    rcases List.mem_append.mp h with h | h
    · exact ⟨d, List.mem_cons_self d rest, evDataset_of_mem_block h⟩
    · obtain ⟨ds, hds, hev⟩ := ih h
      exact ⟨ds, List.mem_cons_of_mem d hds, hev⟩

theorem block_split_loads (w : World) (c : List String) (ds : String) :
    importDatasetTrace w c ds =
      (ImportEvent.ensureDataset ds ::
        (if ("tables") ∈ c then (parquetTableIds w ds).map (ImportEvent.tableLoad ds) else []))
      ++ (((if ("external_tables") ∈ c then [ImportEvent.extTablesTask ds] else [])
          ++ (if ("views") ∈ c then [ImportEvent.viewsTask ds] else []))
          ++ (if ("routines") ∈ c then [ImportEvent.routinesTask ds] else [])) := by
  simp [importDatasetTrace, List.append_assoc]

theorem block_split_ext (w : World) (c : List String) (ds : String) :
    importDatasetTrace w c ds =
      ((ImportEvent.ensureDataset ds ::
        (if ("tables") ∈ c then (parquetTableIds w ds).map (ImportEvent.tableLoad ds) else []))
       ++ (if ("external_tables") ∈ c then [ImportEvent.extTablesTask ds] else []))
      ++ ((if ("views") ∈ c then [ImportEvent.viewsTask ds] else [])
          ++ (if ("routines") ∈ c then [ImportEvent.routinesTask ds] else [])) := by
  simp [importDatasetTrace, List.append_assoc]

theorem block_split_views (w : World) (c : List String) (ds : String) :
    importDatasetTrace w c ds =
      (((ImportEvent.ensureDataset ds ::
        (if ("tables") ∈ c then (parquetTableIds w ds).map (ImportEvent.tableLoad ds) else []))
       ++ (if ("external_tables") ∈ c then [ImportEvent.extTablesTask ds] else []))
       ++ (if ("views") ∈ c then [ImportEvent.viewsTask ds] else []))
      ++ (if ("routines") ∈ c then [ImportEvent.routinesTask ds] else []) := by
  simp [importDatasetTrace, List.append_assoc]

theorem block_loads_before_ext (w : World) (c : List String) (ds : String) :
    allBefore (importDatasetTrace w c ds)
      (fun e => ∃ t, e = ImportEvent.tableLoad ds t)
      (fun e => e = ImportEvent.extTablesTask ds) := by
  rw [block_split_loads]
  apply allBefore_of_sep
  · intro e he hq
    subst hq
    rcases List.mem_cons.mp he with he | he
    · simp at he
    · obtain ⟨t, _, he2⟩ := List.mem_map.mp (mem_of_mem_ite_nil he)
      simp at he2
  · intro e he hp
    obtain ⟨t, he2⟩ := hp
    subst he2
    rcases List.mem_append.mp he with he | he
    rotate_left
    · have := mem_of_mem_ite_nil he; simp at this
    rcases List.mem_append.mp he with he | he
    · have := mem_of_mem_ite_nil he; simp at this
    · have := mem_of_mem_ite_nil he; simp at this

theorem block_ext_before_views (w : World) (c : List String) (ds : String) :
    allBefore (importDatasetTrace w c ds)
      (fun e => e = ImportEvent.extTablesTask ds)
      (fun e => e = ImportEvent.viewsTask ds) := by
  rw [block_split_ext]
  apply allBefore_of_sep
  · intro e he hq
    subst hq
    rcases List.mem_append.mp he with he | he
    · rcases List.mem_cons.mp he with he | he
      · simp at he
      · obtain ⟨t, _, he2⟩ := List.mem_map.mp (mem_of_mem_ite_nil he)
        simp at he2
    · have := mem_of_mem_ite_nil he; simp at this
  · intro e he hp
    subst hp
    rcases List.mem_append.mp he with he | he
    · have := mem_of_mem_ite_nil he; simp at this
    · have := mem_of_mem_ite_nil he; simp at this

theorem block_views_before_routines (w : World) (c : List String) (ds : String) :
    allBefore (importDatasetTrace w c ds)
      (fun e => e = ImportEvent.viewsTask ds)
      (fun e => e = ImportEvent.routinesTask ds) := by
  rw [block_split_views]
  apply allBefore_of_sep
  · intro e he hq
    subst hq
    rcases List.mem_append.mp he with he | he
    rcases List.mem_append.mp he with he | he
    · rcases List.mem_cons.mp he with he | he
      · simp at he
      · obtain ⟨t, _, he2⟩ := List.mem_map.mp (mem_of_mem_ite_nil he)
        simp at he2
    · have := mem_of_mem_ite_nil he; simp at this
    · have := mem_of_mem_ite_nil he; simp at this
  · intro e he hp
    subst hp
    have := mem_of_mem_ite_nil he; simp at this

theorem allBefore_datasetsTrace {w : World} {c : List String} {P Q : ImportEvent → Prop}
    {ds : String}
    (hP : ∀ e, P e → evDataset e = some ds) (hQ : ∀ e, Q e → evDataset e = some ds)
    (hblock : allBefore (importDatasetTrace w c ds) P Q) :
    ∀ dss : List String, dss.Nodup → allBefore (importDatasetsTrace w c dss) P Q := by
  intro dss
  induction dss with
  | nil =>
    intro _
    exact allBefore_of_noP (by intro e he; simp [importDatasetsTrace] at he)
  | cons d rest ih =>
    intro hnd
    rw [List.nodup_cons] at hnd
    show allBefore (importDatasetTrace w c d ++ importDatasetsTrace w c rest) P Q
    by_cases hd : d = ds
    · subst hd
      apply allBefore_append_left _ hblock
      intro e he
      obtain ⟨ds', hds', hev⟩ := evDataset_of_mem_datasetsTrace he
      constructor
      · intro hp
        rw [hP e hp] at hev
        injection hev with h3
        subst h3
        exact hnd.1 hds'
      · intro hq
        rw [hQ e hq] at hev
        injection hev with h3
        subst h3
        exact hnd.1 hds'
    · apply allBefore_append_right _ (ih hnd.2)
      intro e he
      have hev := evDataset_of_mem_block he
      constructor
      · intro hp
        rw [hP e hp] at hev
        injection hev with h3
        exact hd h3.symm
      · intro hq
        rw [hQ e hq] at hev
        injection hev with h3
        exact hd h3.symm

theorem allBefore_importTrace {w : World} {c : List String} {P Q : ImportEvent → Prop}
    {ds : String}
    (hP : ∀ e, P e → evDataset e = some ds) (hQ : ∀ e, Q e → evDataset e = some ds)
    (hblock : allBefore (importDatasetTrace w c ds) P Q)
    (hnd : ∀ nm, findConfigBlob w = some nm → (w.configDatasets nm).Nodup) :
    allBefore (importTrace w c) P Q := by
  unfold importTrace
  cases hcfg : findConfigBlob w with
  | none => exact allBefore_of_noP (by intro e he; simp at he)
  | some nm =>
    apply allBefore_append_left
    · intro e he
      have he2 := mem_of_mem_ite_nil he
      rw [List.mem_singleton] at he2
      subst he2
      constructor
      · intro hp
        have := hP _ hp
        simp [evDataset] at this
      · intro hq
        have := hQ _ hq
        simp [evDataset] at this
    · exact allBefore_datasetsTrace hP hQ hblock _ (hnd nm hcfg)

theorem schedImport_not_mem_datasetsTrace {w : World} {c : List String} :
    ∀ dss : List String, ImportEvent.schedImport ∉ importDatasetsTrace w c dss := by
  intro dss h
  obtain ⟨ds, _, hev⟩ := evDataset_of_mem_datasetsTrace h
  simp [evDataset] at hev

/-! ## String lemmas for qualifier stripping -/

theorem pyReplaceFuel_sublist (pat : List Char) :
    ∀ (fuel : Nat) (s : List Char), List.Sublist (pyReplaceFuel pat fuel s) s := by
  intro fuel
  induction fuel with
  | zero => intro s; exact List.Sublist.refl s
  | succ n ih =>
    intro s
    cases s with
    | nil => exact List.Sublist.refl []
    | cons c rest =>
      simp only [pyReplaceFuel]
      split
      · exact List.Sublist.trans (ih _) (List.drop_sublist _ _)
      · exact List.Sublist.cons₂ c (ih rest)

theorem pyRemoveAll_sublist (pat s : List Char) : List.Sublist (pyRemoveAll pat s) s := by
  unfold pyRemoveAll
  split
  · exact List.Sublist.refl s
  · exact pyReplaceFuel_sublist pat s.length s

theorem pyReplaceFuel_of_not_occurs (pat : List Char) :
    ∀ (fuel : Nat) (s : List Char), occursIn pat s = false → pyReplaceFuel pat fuel s = s := by
  intro fuel
  induction fuel with
  | zero => intro s _; rfl
  | succ n ih =>
    intro s h
    cases s with
    | nil => rfl
    | cons c rest =>
      simp only [occursIn, Bool.or_eq_false_iff] at h
      simp only [pyReplaceFuel]
      rw [if_neg (by simp [h.1])]
      rw [ih rest h.2]

theorem stripQualifier_of_not_occurs (pid q : String)
    (h : occursIn (pid ++ ".").toList q.toList = false) : stripQualifier pid q = q := by
  unfold stripQualifier pyRemoveAll
  split
  · rfl
  · rw [pyReplaceFuel_of_not_occurs _ _ _ h]
    rfl

/-! ## Characterizations of the export/import loops -/

theorem exportRoutinesSerialize_eq_filter (pid : String) :
    ∀ rs : List LiveRoutine, exportRoutinesSerialize pid rs
      = (rs.filter (fun r => !(r.body == ""))).map
          (fun r => serialize_routine { r with body := stripQualifier pid r.body }) := by
  intro rs
  induction rs with
  | nil => rfl
  | cons r rest ih =>
    simp only [exportRoutinesSerialize, List.filter_cons]
    by_cases hb : r.body = ""
    · rw [if_pos hb, if_neg (by simp [hb])]
      exact ih
    · rw [if_neg hb, if_pos (by simp [hb])]
      simp [ih]

theorem exportRoutinesSkipped_eq_filter :
    ∀ rs : List LiveRoutine, exportRoutinesSkipped rs
      = (rs.filter (fun r => r.body == "")).map (fun r => r.routine_id) := by
  intro rs
  induction rs with
  | nil => rfl
  | cons r rest ih =>
    simp only [exportRoutinesSkipped, List.filter_cons]
    by_cases hb : r.body = ""
    · rw [if_pos hb, if_pos (by simp [hb])]
      simp [ih]
    · rw [if_neg hb, if_neg (by simp [hb])]
      exact ih

theorem import_views_loop_eq_filter (pid ds : String) (vf : ViewRec → Bool) :
    ∀ vs : List ViewRec, import_views_loop pid ds vf vs
      = (vs.filter (fun v => !(vf v))).map (deserialize_view pid ds) := by
  intro vs
  induction vs with
  | nil => rfl
  | cons v rest ih =>
    simp only [import_views_loop, List.filter_cons]
    by_cases hv : vf v = true
    · rw [if_pos hv, if_neg (by simp [hv])]
      exact ih
    · rw [if_neg hv, if_pos (by simp [Bool.eq_false_iff.mpr hv])]
      simp [ih]

theorem import_routines_loop_stops (pid ds region : String) (rf : RoutineRec → Bool)
    (r0 : RoutineRec) (post : List RoutineRec) (h0 : rf r0 = true) :
    ∀ pre : List RoutineRec, (∀ r ∈ pre, rf r = false) →
      import_routines_loop pid ds region rf (pre ++ r0 :: post)
        = pre.map (deserialize_routine pid ds region) := by
  intro pre
  induction pre with
  | nil =>
    intro _
    simp only [List.nil_append, import_routines_loop]
    rw [if_pos h0]
    rfl
  | cons p pre' ih =>
    intro hpre
    simp only [List.cons_append, import_routines_loop, List.append_eq]
    rw [if_neg (by simp [hpre p (List.mem_cons_self p pre')])]
    rw [ih (fun r hr => hpre r (List.mem_cons_of_mem p hr))]
    rfl

theorem import_ext_tables_loop_stops (pid ds : String) (xf : ExtTableRec → Bool)
    (x0 : ExtTableRec) (post : List ExtTableRec) (h0 : xf x0 = true) :
    ∀ pre : List ExtTableRec, (∀ x ∈ pre, xf x = false) →
      import_ext_tables_loop pid ds xf (pre ++ x0 :: post)
        = pre.map (deserialize_external_table pid ds) := by
  intro pre
  induction pre with
  | nil =>
    intro _
    simp only [List.nil_append, import_ext_tables_loop]
    rw [if_pos h0]
    rfl
  | cons p pre' ih =>
    intro hpre
    simp only [List.cons_append, import_ext_tables_loop, List.append_eq]
    rw [if_neg (by simp [hpre p (List.mem_cons_self p pre')])]
    rw [ih (fun x hx => hpre x (List.mem_cons_of_mem p hx))]
    rfl

/-! ## Counting lemmas (task totals vs progress increments) -/

theorem runCaughtTask_updates (b : Bool) : (runCaughtTask b).updates = 1 := by
  unfold runCaughtTask
  split <;> rfl

theorem exportTaskRun_updates (fails : ExportTask → Bool) (t : ExportTask) :
    (exportTaskRun fails t).updates = 1 := by
  cases t <;>
    simp only [exportTaskRun, runCaughtTask, runSchedExportTask] <;>
    split <;> rfl

theorem sum_map_one {α : Type} (f : α → Nat) (h : ∀ a, f a = 1) :
    ∀ l : List α, (l.map f).sum = l.length := by
  intro l
  induction l with
  | nil => rfl
  | cons a rest ih => simp [h a, ih, Nat.add_comm]

theorem length_ite_nil {α : Type} (b : Prop) [Decidable b] (l : List α) :
    (if b then l else []).length = if b then l.length else 0 := by
  split <;> rfl

theorem exportDatasetTasks_length (w : World) (c : List String) (ds : String) :
    (exportDatasetTasks w c ds).length =
      (if ("routines") ∈ c then 1 else 0)
      + (if ("views") ∈ c then 1 else 0)
      + (if ("external_tables") ∈ c then 1 else 0)
      + (if ("tables") ∈ c then
          ((w.liveTables ds).filter (fun t => t.table_type == "TABLE")).length else 0) := by
  simp only [exportDatasetTasks, List.length_append, length_ite_nil, List.length_map,
    List.length_singleton]

theorem count_tasks_export_aux (w : World) (c : List String) :
    ∀ dss : List String,
      (if ("routines") ∈ c then dss.length else 0)
      + (if ("views") ∈ c then dss.length else 0)
      + (if ("external_tables") ∈ c then dss.length else 0)
      + (if ("tables") ∈ c then
          (dss.map (fun ds =>
            ((w.liveTables ds).filter (fun t => t.table_type == "TABLE")).length)).sum else 0)
      = (exportTasksOf w c dss).length := by
  intro dss
  induction dss with
  | nil => simp [exportTasksOf]
  | cons d rest ih =>
    show _ = (exportDatasetTasks w c d ++ exportTasksOf w c rest).length
    rw [List.length_append, exportDatasetTasks_length, ← ih]
    by_cases hr : ("routines") ∈ c <;>
    by_cases hv : ("views") ∈ c <;>
    by_cases he : ("external_tables") ∈ c <;>
    by_cases ht : ("tables") ∈ c <;>
      simp [hr, hv, he, ht] <;> omega

theorem importDatasetTrace_tasks_length (w : World) (c : List String) (ds : String) :
    ((importDatasetTrace w c ds).filter isTaskEvent).length =
      (if ("tables") ∈ c then (parquetTableIds w ds).length else 0)
      + (if ("external_tables") ∈ c then 1 else 0)
      + (if ("views") ∈ c then 1 else 0)
      + (if ("routines") ∈ c then 1 else 0) := by
  by_cases ht : ("tables") ∈ c <;>
  by_cases he : ("external_tables") ∈ c <;>
  by_cases hv : ("views") ∈ c <;>
  by_cases hr : ("routines") ∈ c <;>
    simp [importDatasetTrace, ht, he, hv, hr, isTaskEvent, List.filter_append,
      List.filter_map, Function.comp, List.length_map]

theorem count_tasks_import_aux (w : World) (c : List String) :
    ∀ dss : List String,
      (if ("routines") ∈ c then dss.length else 0)
      + (if ("views") ∈ c then dss.length else 0)
      + (if ("external_tables") ∈ c then dss.length else 0)
      + (if ("tables") ∈ c then (dss.map (fun ds => (parquetTableIds w ds).length)).sum else 0)
      = ((importDatasetsTrace w c dss).filter isTaskEvent).length := by
  intro dss
  induction dss with
  | nil => simp [importDatasetsTrace]
  | cons d rest ih =>
    show _ = ((importDatasetTrace w c d ++ importDatasetsTrace w c rest).filter isTaskEvent).length
    rw [List.filter_append, List.length_append, importDatasetTrace_tasks_length, ← ih]
    by_cases hr : ("routines") ∈ c <;>
    by_cases hv : ("views") ∈ c <;>
    by_cases he : ("external_tables") ∈ c <;>
    by_cases ht : ("tables") ∈ c <;>
      simp [hr, hv, he, ht] <;> omega

theorem sched_suffix_tasks_length (c : List String) :
    ((if ("scheduled_queries") ∈ c then [ImportEvent.schedImport] else []).filter
        isTaskEvent).length
      = (if ("scheduled_queries") ∈ c then 1 else 0) := by
  split <;> rfl

theorem export_count_eq_increments (w : World) (c : List String) (fails : ExportTask → Bool) :
    count_tasks w w.liveDatasets c ("export") = exportIncrements w c fails := by
  unfold exportIncrements
  rw [sum_map_one _ (exportTaskRun_updates fails)]
  unfold exportTaskList
  rw [List.length_append, ← count_tasks_export_aux, length_ite_nil]
  simp only [List.length_singleton]
  unfold count_tasks
  have hx : ¬ (("export" : String) = "import") := by decide
  simp only [eq_self_iff_true, if_true, hx, if_false, Nat.add_zero]

theorem import_count_eq_increments (w : World) (c : List String) (fails : ImportEvent → Bool)
    (nm : String) (hcfg : findConfigBlob w = some nm)
    (hsame : w.configDatasets nm = w.liveDatasets) :
    count_tasks w w.liveDatasets c ("import") = importIncrements w c fails := by
  unfold importIncrements importTrace
  rw [hcfg]
  dsimp only
  rw [hsame]
  rw [sum_map_one _ (fun e => runCaughtTask_updates (fails e))]
  rw [List.filter_append, List.length_append, ← count_tasks_import_aux,
    sched_suffix_tasks_length]
  unfold count_tasks
  have hx : ¬ (("import" : String) = "export") := by decide
  simp only [eq_self_iff_true, if_true, hx, if_false, Nat.zero_add]

theorem stripQueryParam_isEmpty (pid : String) (ps : List (String × String)) :
    (stripQueryParam pid ps).isEmpty = ps.isEmpty := by
  cases ps <;> rfl

theorem lookupParam_stripQueryParam (pid : String) :
    ∀ ps : List (String × String),
      lookupParam (stripQueryParam pid ps) ("query")
        = (lookupParam ps ("query")).map (stripQualifier pid) := by
  intro ps
  induction ps with
  | nil => rfl
  | cons p rest ih =>
    simp only [stripQueryParam, List.map_cons]
    by_cases hk : p.1 = "query"
    · rw [if_pos (by simpa using hk)]
      unfold lookupParam
      rw [List.find?_cons_of_pos _ (by simpa using hk),
        List.find?_cons_of_pos _ (by simpa using hk)]
      rfl
    · rw [if_neg (by simpa using hk)]
      unfold lookupParam
      rw [List.find?_cons_of_neg _ (by simpa using hk),
        List.find?_cons_of_neg _ (by simpa using hk)]
      exact ih

theorem find?_first {α : Type} (p : α → Bool) (nm : α) (post : List α) (h : p nm = true) :
    ∀ pre : List α, (∀ b ∈ pre, p b = false) → (pre ++ nm :: post).find? p = some nm := by
  intro pre
  induction pre with
  | nil =>
    intro _
    rw [List.nil_append]
    exact List.find?_cons_of_pos post h
  | cons a rest ih =>
    intro hpre
    rw [List.cons_append,
      List.find?_cons_of_neg _ (by simp [hpre a (List.mem_cons_self a rest)])]
    exact ih (fun b hb => hpre b (List.mem_cons_of_mem a hb))

theorem runCaughtTask_raised (b : Bool) : (runCaughtTask b).raised = false := by
  unfold runCaughtTask
  split <;> rfl

/-! ## Claim theorems -/

/-- C7: during initialization, a not-found bucket lookup leads to creating
the bucket in the configured region; a forbidden lookup or a creation
conflict raises a fatal error, and in the forbidden case no further storage
operation is attempted (the operation trace stops at the lookup). -/
theorem bucket_init_behavior (bn region : String) (create : CreateOutcome) :
    (bigquery_base_init bn region .notFound .created).result
      = .ok { name := bn, location := some region } ∧
    (bigquery_base_init bn region .notFound .created).ops
      = [.getBucketOp, .createBucketOp] ∧
    (bigquery_base_init bn region .forbidden create).result = .error .forbiddenErr ∧
    (bigquery_base_init bn region .forbidden create).ops = [.getBucketOp] ∧
    (bigquery_base_init bn region .notFound .conflict).result = .error .conflictErr ∧
    (bigquery_base_init bn region .notFound .conflict).ops
      = [.getBucketOp, .createBucketOp] ∧
    (bigquery_base_init bn region .found create).result
      = .ok { name := bn, location := none } :=
  ⟨rfl, rfl, rfl, rfl, rfl, rfl, rfl⟩

/-- C5 counterexample: two views that differ precisely in the persisted
schema field of their records deserialize to identical reconstructed
objects, so the reconstruction cannot be equivalent to the original in all
persisted fields. -/
theorem roundtrip_drops_view_schema :
    deserialize_view ("p") ("d") (serialize_view cxViewA)
      = deserialize_view ("p") ("d") (serialize_view cxViewB) ∧
    (serialize_view cxViewA).schema ≠ (serialize_view cxViewB).schema :=
  ⟨rfl, by decide⟩

/-- C5 amended: deserialization reconstructs exactly the fields the importer
reads — routine: id, type, language, body, arguments in order, description;
view: id, query, description; external table: id, schema, config,
description; scheduled query: display_name, data_source_id, params.query,
schedule, destination_dataset_id, disabled — and preserves them verbatim
(the self-project qualifier was already stripped before serialization).
The remaining persisted fields are not restored. -/
theorem roundtrip_preserves_imported_fields (pid ds region : String)
    (r : LiveRoutine) (v : LiveView) (x : LiveExtTable) (t : LiveTransfer) :
    deserialize_routine pid ds region (serialize_routine r)
      = { full_id := pid ++ "." ++ ds ++ "." ++ r.routine_id, type_ := r.type_
        , language := r.language, body := r.body, location := region
        , arguments := r.arguments, description := r.description } ∧
    deserialize_view pid ds (serialize_view v)
      = { full_id := pid ++ "." ++ ds ++ "." ++ v.table_id
        , view_query := v.view_query, description := v.description } ∧
    deserialize_external_table pid ds (serialize_external_table x)
      = { full_id := pid ++ "." ++ ds ++ "." ++ x.table_id, schema := x.schema
        , external_data_configuration := x.external_data_configuration
        , description := x.description } ∧
    deserialize_scheduled_query pid region (serialize_scheduled_query t)
      = { parent := "projects/" ++ pid ++ "/locations/" ++ region
        , display_name := t.display_name, data_source_id := t.data_source_id
        , params := [(("query"),
            if t.params.isEmpty then none else lookupParam t.params ("query"))]
        , schedule := t.schedule, destination_dataset_id := t.destination_dataset_id
        , disabled := t.disabled } :=
  ⟨rfl, rfl, rfl, rfl⟩

/-- C10: an imported scheduled query is created under the importer's single
configured region — independent of the record's dataset_region — and the
creation request is a function of only display_name, data_source_id,
params_query, schedule, destination_dataset_id and disabled. -/
theorem scheduled_import_region_and_fields (pid region : String) (r r2 : TransferRec)
    (h1 : r.display_name = r2.display_name) (h2 : r.data_source_id = r2.data_source_id)
    (h3 : r.params_query = r2.params_query) (h4 : r.schedule = r2.schedule)
    (h5 : r.destination_dataset_id = r2.destination_dataset_id)
    (h6 : r.disabled = r2.disabled) :
    (deserialize_scheduled_query pid region r).parent
      = "projects/" ++ pid ++ "/locations/" ++ region ∧
    (∀ dr : String,
      deserialize_scheduled_query pid region { r with dataset_region := dr }
        = deserialize_scheduled_query pid region r) ∧
    deserialize_scheduled_query pid region r = deserialize_scheduled_query pid region r2 := by
  refine ⟨rfl, fun dr => rfl, ?_⟩
  simp [deserialize_scheduled_query, h1, h2, h3, h4, h5, h6]

/-- C10 witness: wTransferRecA and wTransferRecB agree on the six imported
fields and differ in dataset_region and every other extra field, yet yield
the same creation request, placed in the importer's region. -/
theorem scheduled_import_region_and_fields_witness :
    (deserialize_scheduled_query ("proj2") ("europe-north1") wTransferRecA).parent
      = "projects/" ++ ("proj2") ++ "/locations/" ++ ("europe-north1") ∧
    deserialize_scheduled_query ("proj2") ("europe-north1") wTransferRecA
      = deserialize_scheduled_query ("proj2") ("europe-north1") wTransferRecB := by
  have h := scheduled_import_region_and_fields ("proj2") ("europe-north1")
    wTransferRecA wTransferRecB rfl rfl rfl rfl rfl rfl
  exact ⟨h.1, h.2.2⟩

/-- C3 counterexample: when the body of export_scheduled_queries fails at a
point not covered by an inner handler (for example writing
scheduled_queries.json), its except clause logs and re-raises, so the error
escapes the task boundary and the export run does not complete. -/
theorem sched_export_error_escapes_task :
    (exportTaskRun (fun _ => true) ExportTask.schedTask).raised = true ∧
    exportRunCompletes [("scheduled_queries")] (fun _ => true) = false :=
  ⟨rfl, by decide⟩

/-- C3 amended: every task except the export scheduled-queries task catches
recoverable errors at the task boundary and never re-raises; an export run
completes whenever its failures avoid the scheduled-queries task, and an
importing run completes whenever a config blob exists, whatever the
per-task outcomes. -/
theorem per_task_errors_contained (c : List String) (fails : ExportTask → Bool)
    (w : World) (b : Bool) :
    (runCaughtTask b).raised = false ∧
    (∀ t : ExportTask, t ≠ ExportTask.schedTask → (exportTaskRun fails t).raised = false) ∧
    ((("scheduled_queries") ∈ c → fails ExportTask.schedTask = false) →
      exportRunCompletes c fails = true) ∧
    ((findConfigBlob w).isSome = true → importRunCompletes w = true) := by
  refine ⟨runCaughtTask_raised b, ?_, ?_, fun h => h⟩
  · intro t ht
    cases t with
    | routinesTask ds => simp [exportTaskRun, runCaughtTask_raised]
    | viewsTask ds => simp [exportTaskRun, runCaughtTask_raised]
    | extTablesTask ds => simp [exportTaskRun, runCaughtTask_raised]
    | tableTask ds tbl => simp [exportTaskRun, runCaughtTask_raised]
    | schedTask => exact absurd rfl ht
  · intro himp
    by_cases hm : ("scheduled_queries") ∈ c
    · simp [exportRunCompletes, hm, exportTaskRun, runSchedExportTask, himp hm]
    · simp [exportRunCompletes, hm]

/-- C3 witness: with every task failing, a run whose components avoid the
export scheduled-queries task still completes, and the import run on a
bucket holding a config blob completes. -/
theorem per_task_errors_contained_witness :
    (∀ t : ExportTask, t ≠ ExportTask.schedTask →
      (exportTaskRun (fun _ => true) t).raised = false) ∧
    exportRunCompletes [("views")] (fun _ => true) = true ∧
    importRunCompletes wWorld = true := by
  have h := per_task_errors_contained [("views")] (fun _ => true) wWorld true
  exact ⟨h.2.1, h.2.2.1 (by decide), h.2.2.2 (by decide)⟩

/-- C2 counterexample: a bucket with two blobs ending in '_config.json' is
not fatal — the import proceeds using the first blob in listing order — so
the run does not abort exactly when the count differs from one. -/
theorem import_config_ambiguity_not_fatal :
    cx2World.bucketBlobs.countP (fun n => strEndsWith ("_config.json") n) = 2 ∧
    import_project_config cx2World = .ok (cx2World.configDatasets ("a_config.json")) ∧
    (import_project_config cx2World).isOk = true :=
  ⟨by decide, rfl, rfl⟩

/-- C2 amended: the import aborts if and only if no blob name ends with
'_config.json'; when one or more such blobs exist, the first in listing
order is read and the run proceeds (an ambiguous config is not fatal). -/
theorem import_config_abort_iff_missing (w w2 : World) (pre post : List String)
    (nm : String) (hsplit : w2.bucketBlobs = pre ++ nm :: post)
    (hnm : strEndsWith ("_config.json") nm = true)
    (hpre : ∀ b ∈ pre, strEndsWith ("_config.json") b = false) :
    ((import_project_config w).isOk = false ↔
      ∀ b ∈ w.bucketBlobs, strEndsWith ("_config.json") b = false) ∧
    import_project_config w2 = .ok (w2.configDatasets nm) := by
  constructor
  · unfold import_project_config findConfigBlob
    cases hf : w.bucketBlobs.find? (fun n => strEndsWith ("_config.json") n) with
    | none =>
      constructor
      · intro _ b hb
        have := List.find?_eq_none.mp hf b hb
        simpa using this
      · intro _
        rfl
    | some x =>
      constructor
      · intro habs
        simp [Except.isOk, Except.toBool] at habs
      · intro hall
        have hx := List.find?_some hf
        have hmem := List.mem_of_find?_eq_some hf
        rw [hall x hmem] at hx
        exact absurd hx (by simp)
  · unfold import_project_config findConfigBlob
    rw [hsplit, find?_first _ _ _ hnm pre hpre]

/-- C2 witness: an empty result of the config scan is fatal on cx1World's
single-config bucket only when no blob matches, and on wWorld the single
config blob (trivial decomposition with empty prefix) is the one used. -/
theorem import_config_abort_iff_missing_witness :
    ((import_project_config cx1World).isOk = false ↔
      ∀ b ∈ cx1World.bucketBlobs, strEndsWith ("_config.json") b = false) ∧
    import_project_config wWorld = .ok (wWorld.configDatasets ("p_config.json")) :=
  import_config_abort_iff_missing cx1World wWorld [] [] ("p_config.json")
    rfl (by decide) (by decide)

/-- C8: when a dataset's routines contain exactly one routine with an empty
body, export_routines skips it, serializes and persists all the others in
order with their bodies qualifier-stripped, completes successfully, and
reports the count of the non-skipped routines. -/
theorem empty_body_routine_skipped (pid : String) (pre post : List LiveRoutine)
    (r0 : LiveRoutine) (h0 : r0.body = "")
    (hpre : ∀ r ∈ pre, r.body ≠ "") (hpost : ∀ r ∈ post, r.body ≠ "") :
    (export_routines_run pid (pre ++ r0 :: post)).persisted
      = (pre ++ post).map
          (fun r => serialize_routine { r with body := stripQualifier pid r.body }) ∧
    (export_routines_run pid (pre ++ r0 :: post)).skippedIds = [r0.routine_id] ∧
    (export_routines_run pid (pre ++ r0 :: post)).reportedCount
      = pre.length + post.length ∧
    (export_routines_run pid (pre ++ r0 :: post)).succeeded = true ∧
    (export_routines_run pid (pre ++ r0 :: post)).updates = 1 := by
  have hfil : (pre ++ r0 :: post).filter (fun r => !(r.body == "")) = pre ++ post := by
    rw [List.filter_append, List.filter_cons, if_neg (by simp [h0])]
    rw [List.filter_eq_self.mpr (by intro a ha; simp [hpre a ha]),
      List.filter_eq_self.mpr (by intro a ha; simp [hpost a ha])]
  have hskip : (pre ++ r0 :: post).filter (fun r => r.body == "") = [r0] := by
    rw [List.filter_append, List.filter_cons, if_pos (by simp [h0])]
    rw [List.filter_eq_nil_iff.mpr (by intro a ha; simp [hpre a ha]),
      List.filter_eq_nil_iff.mpr (by intro a ha; simp [hpost a ha])]
    rfl
  refine ⟨?_, ?_, ?_, rfl, rfl⟩
  · show exportRoutinesSerialize pid (pre ++ r0 :: post) = _
    rw [exportRoutinesSerialize_eq_filter, hfil]
  · show exportRoutinesSkipped (pre ++ r0 :: post) = _
    rw [exportRoutinesSkipped_eq_filter, hskip]
    rfl
  · show (exportRoutinesSerialize pid (pre ++ r0 :: post)).length = _
    rw [exportRoutinesSerialize_eq_filter, hfil, List.length_map, List.length_append]

/-- C8 witness: the spec scenario — five routines, the third with an empty
body: four are persisted, the empty one is skipped, the task succeeds and
reports count 4. -/
theorem empty_body_routine_skipped_witness :
    (export_routines_run ("p")
        ([mkWitnessRoutine ("r1") ("SELECT 1"), mkWitnessRoutine ("r2") ("SELECT 2")]
          ++ mkWitnessRoutine ("r3") ("")
            :: [mkWitnessRoutine ("r4") ("SELECT 4"),
                mkWitnessRoutine ("r5") ("SELECT 5")])).reportedCount = 4 ∧
    (export_routines_run ("p")
        ([mkWitnessRoutine ("r1") ("SELECT 1"), mkWitnessRoutine ("r2") ("SELECT 2")]
          ++ mkWitnessRoutine ("r3") ("")
            :: [mkWitnessRoutine ("r4") ("SELECT 4"),
                mkWitnessRoutine ("r5") ("SELECT 5")])).skippedIds = [("r3")] ∧
    (export_routines_run ("p")
        ([mkWitnessRoutine ("r1") ("SELECT 1"), mkWitnessRoutine ("r2") ("SELECT 2")]
          ++ mkWitnessRoutine ("r3") ("")
            :: [mkWitnessRoutine ("r4") ("SELECT 4"),
                mkWitnessRoutine ("r5") ("SELECT 5")])).succeeded = true := by
  have h := empty_body_routine_skipped ("p")
    [mkWitnessRoutine ("r1") ("SELECT 1"), mkWitnessRoutine ("r2") ("SELECT 2")]
    [mkWitnessRoutine ("r4") ("SELECT 4"), mkWitnessRoutine ("r5") ("SELECT 5")]
    (mkWitnessRoutine ("r3") ("")) rfl (by decide) (by decide)
  refine ⟨?_, ?_, h.2.2.2.1⟩
  · rw [h.2.2.1]
    rfl
  · rw [h.2.1]
    rfl

/-- C9: failure granularity inside one import task differs by kind — a
failing view create is caught per object, so every non-failing view of the
dataset is still created; a failing routine or external-table create aborts
the rest of that dataset's routines (respectively external tables). -/
theorem import_failure_granularity (pid ds region : String)
    (vf : ViewRec → Bool) (rf : RoutineRec → Bool) (xf : ExtTableRec → Bool)
    (vs : List ViewRec) (rpre rpost : List RoutineRec) (r0 : RoutineRec)
    (xpre xpost : List ExtTableRec) (x0 : ExtTableRec)
    (hr0 : rf r0 = true) (hrpre : ∀ r ∈ rpre, rf r = false)
    (hx0 : xf x0 = true) (hxpre : ∀ x ∈ xpre, xf x = false) :
    import_views_loop pid ds vf vs
      = (vs.filter (fun v => !(vf v))).map (deserialize_view pid ds) ∧
    import_routines_loop pid ds region rf (rpre ++ r0 :: rpost)
      = rpre.map (deserialize_routine pid ds region) ∧
    import_ext_tables_loop pid ds xf (xpre ++ x0 :: xpost)
      = xpre.map (deserialize_external_table pid ds) :=
  ⟨import_views_loop_eq_filter pid ds vf vs,
   import_routines_loop_stops pid ds region rf r0 rpost hr0 rpre hrpre,
   import_ext_tables_loop_stops pid ds xf x0 xpost hx0 xpre hxpre⟩

/-- C9 witness: with the object named "bad" failing in each kind, views "a"
and "c" are still created, while the routines and external tables after the
failing one are not. -/
theorem import_failure_granularity_witness :
    import_views_loop ("p") ("d") (fun v => v.table_id == "bad")
        [wViewRec ("a"), wViewRec ("bad"), wViewRec ("c")]
      = ([wViewRec ("a"), wViewRec ("bad"), wViewRec ("c")].filter
          (fun v => !(v.table_id == "bad"))).map (deserialize_view ("p") ("d")) ∧
    import_routines_loop ("p") ("d") ("r") (fun r => r.routine_id == "bad")
        ([wRoutineRec ("a")] ++ wRoutineRec ("bad") :: [wRoutineRec ("c")])
      = [wRoutineRec ("a")].map (deserialize_routine ("p") ("d") ("r")) ∧
    import_ext_tables_loop ("p") ("d") (fun x => x.table_id == "bad")
        ([wExtRec ("a")] ++ wExtRec ("bad") :: [wExtRec ("c")])
      = [wExtRec ("a")].map (deserialize_external_table ("p") ("d")) :=
  import_failure_granularity ("p") ("d") ("r")
    (fun v => v.table_id == "bad") (fun r => r.routine_id == "bad")
    (fun x => x.table_id == "bad")
    [wViewRec ("a"), wViewRec ("bad"), wViewRec ("c")]
    [wRoutineRec ("a")] [wRoutineRec ("c")] (wRoutineRec ("bad"))
    [wExtRec ("a")] [wExtRec ("c")] (wExtRec ("bad"))
    (by decide) (by decide) (by decide) (by decide)

/-- C6 counterexample: stripping the project id "ab" from the view query
"aab.b." removes its one occurrence of "ab." but splices the surrounding
text into a fresh "ab." — the persisted record still contains an occurrence
of the project qualifier, so not every occurrence is removed from the
persisted text. -/
theorem strip_can_leave_qualifier :
    (export_views_run ("ab") [cx6View]).persisted.map (fun r => r.view_query)
      = [("ab.")] ∧
    occursIn (("ab" ++ ".").toList) ((stripQualifier ("ab") ("aab.b.")).toList) = true :=
  ⟨by decide, by decide⟩

/-- C6 amended: before persisting, the exporter performs Python's single
left-to-right replace of "{project_id}." with the empty string on view
queries, routine bodies and scheduled-query params.query.  Nothing is
inserted in place of a removed occurrence (the stripped text is a
subsequence of the original, in particular no target project is
substituted), text without an occurrence is left unchanged, and removal can
splice adjacent text into a new occurrence which then remains.  The
backtick-reference warning is computed on the stripped text and the task
succeeds regardless of warnings. -/
theorem qualifier_stripping_behavior (pid q : String) (views : List LiveView)
    (routines : List LiveRoutine) (ps : List (String × String)) (t : LiveTransfer) :
    List.Sublist (stripQualifier pid q).toList q.toList ∧
    (occursIn (pid ++ ".").toList q.toList = false → stripQualifier pid q = q) ∧
    (export_views_run pid views).succeeded = true ∧
    (export_views_run pid views).persisted
      = views.map (fun v => serialize_view { v with view_query := stripQualifier pid v.view_query }) ∧
    (export_views_run pid views).warnedIds
      = ((views.map (fun v => { v with view_query := stripQualifier pid v.view_query })).filter
          (fun v => hasProjRef v.view_query.toList)).map (fun v => v.table_id) ∧
    (export_routines_run pid routines).succeeded = true ∧
    (export_routines_run pid routines).persisted
      = (routines.filter (fun r => !(r.body == ""))).map
          (fun r => serialize_routine { r with body := stripQualifier pid r.body }) ∧
    lookupParam (stripQueryParam pid ps) ("query")
      = (lookupParam ps ("query")).map (stripQualifier pid) ∧
    (serialize_scheduled_query { t with params := stripQueryParam pid t.params }).params_query
      = (if t.params.isEmpty then none
         else (lookupParam t.params ("query")).map (stripQualifier pid)) := by
  refine ⟨pyRemoveAll_sublist _ _, stripQualifier_of_not_occurs pid q, rfl, ?_, rfl, rfl,
    exportRoutinesSerialize_eq_filter pid routines, lookupParam_stripQueryParam pid ps, ?_⟩
  · show (views.map (fun v => { v with view_query := stripQualifier pid v.view_query })).map
        serialize_view = _
    rw [List.map_map]
    rfl
  · show (if (stripQueryParam pid t.params).isEmpty then none
        else lookupParam (stripQueryParam pid t.params) ("query")) = _
    rw [stripQueryParam_isEmpty, lookupParam_stripQueryParam]

/-- C6 witness: stripping is the identity on a query with no occurrence of
the qualifier. -/
theorem qualifier_stripping_behavior_witness :
    occursIn (("p" ++ ".").toList) ("SELECT 1").toList = false ∧
    stripQualifier ("p") ("SELECT 1") = "SELECT 1" :=
  ⟨by decide,
   (qualifier_stripping_behavior ("p") ("SELECT 1") [] [] [] wLiveTransfer).2.1
     (by decide)⟩

/-- C1 counterexample: importing into a fresh destination project —
count_tasks is computed from the destination's live dataset list (empty)
while the run iterates the bucket config's datasets, so the pre-run total 0
differs from the single task increment performed during the run. -/
theorem count_tasks_mismatch_on_import :
    count_tasks cx1World cx1World.liveDatasets [("views")] ("import") = 0 ∧
    importIncrements cx1World [("views")] (fun _ => false) = 1 ∧
    ¬ (count_tasks cx1World cx1World.liveDatasets [("views")] ("import")
        = importIncrements cx1World [("views")] (fun _ => false)) :=
  ⟨by decide, by decide, by decide⟩

/-- C1 amended: in export mode the pre-run task total equals the number of
progress increments for every components subset and every failure pattern
(each task increments exactly once, in a finally block); in import mode the
equality holds provided the destination project's live dataset list, which
count_tasks iterates, coincides with the dataset list stored in the
bucket's config blob, which the run iterates. -/
theorem count_tasks_matches_progress_increments (w : World) (c : List String)
    (ef : ExportTask → Bool) (imf : ImportEvent → Bool) (nm : String)
    (hcfg : findConfigBlob w = some nm)
    (hsame : w.configDatasets nm = w.liveDatasets) :
    count_tasks w w.liveDatasets c ("export") = exportIncrements w c ef ∧
    count_tasks w w.liveDatasets c ("import") = importIncrements w c imf :=
  ⟨export_count_eq_increments w c ef,
   import_count_eq_increments w c imf nm hcfg hsame⟩

/-- C1 witness: on a world whose live datasets and bucket config agree, with
the full component set and every task failing, both totals match the
increments. -/
theorem count_tasks_matches_progress_increments_witness :
    findConfigBlob wWorld = some ("p_config.json") ∧
    wWorld.configDatasets ("p_config.json") = wWorld.liveDatasets ∧
    (count_tasks wWorld wWorld.liveDatasets cAllComponents ("export")
        = exportIncrements wWorld cAllComponents (fun _ => true) ∧
     count_tasks wWorld wWorld.liveDatasets cAllComponents ("import")
        = importIncrements wWorld cAllComponents (fun _ => true)) :=
  ⟨by decide, by decide,
   count_tasks_matches_progress_increments wWorld cAllComponents
     (fun _ => true) (fun _ => true) ("p_config.json") (by decide) (by decide)⟩

/-- C4: in every import run whose bucket config lists distinct datasets, and
for every dataset, all managed-table loads occur before that dataset's
external-tables stage, external tables before views, views before routines;
every non-scheduled event precedes the scheduled-queries import, which
occurs exactly once when selected, after all datasets. -/
theorem import_stage_ordering (w : World) (c : List String)
    (hnd : ∀ nm, findConfigBlob w = some nm → (w.configDatasets nm).Nodup) :
    (∀ ds, allBefore (importTrace w c)
        (fun e => ∃ t, e = ImportEvent.tableLoad ds t)
        (fun e => e = ImportEvent.extTablesTask ds)) ∧
    (∀ ds, allBefore (importTrace w c)
        (fun e => e = ImportEvent.extTablesTask ds)
        (fun e => e = ImportEvent.viewsTask ds)) ∧
    (∀ ds, allBefore (importTrace w c)
        (fun e => e = ImportEvent.viewsTask ds)
        (fun e => e = ImportEvent.routinesTask ds)) ∧
    allBefore (importTrace w c)
      (fun e => e ≠ ImportEvent.schedImport) (fun e => e = ImportEvent.schedImport) ∧
    (∀ nm, findConfigBlob w = some nm →
      (importTrace w c).count ImportEvent.schedImport
        = (if ("scheduled_queries") ∈ c then 1 else 0)) := by
  refine ⟨?_, ?_, ?_, ?_, ?_⟩
  · intro ds
    exact allBefore_importTrace
      (by intro e hp; obtain ⟨t, he⟩ := hp; subst he; rfl)
      (by intro e hq; subst hq; rfl)
      (block_loads_before_ext w c ds) hnd
  · intro ds
    exact allBefore_importTrace
      (by intro e hp; subst hp; rfl)
      (by intro e hq; subst hq; rfl)
      (block_ext_before_views w c ds) hnd
  · intro ds
    exact allBefore_importTrace
      (by intro e hp; subst hp; rfl)
      (by intro e hq; subst hq; rfl)
      (block_views_before_routines w c ds) hnd
  · unfold importTrace
    cases hcfg : findConfigBlob w with
    | none => exact allBefore_of_noP (by intro e he; simp at he)
    | some nm =>
      apply allBefore_of_sep
      · intro e he hq
        subst hq
        exact schedImport_not_mem_datasetsTrace _ he
      · intro e he hne
        have he2 := mem_of_mem_ite_nil he
        rw [List.mem_singleton] at he2
        exact hne he2
  · intro nm hcfg
    unfold importTrace
    rw [hcfg]
    dsimp only
    rw [List.count_append, List.count_eq_zero.mpr (schedImport_not_mem_datasetsTrace _)]
    split <;> rfl

/-- C4 witness: a concrete run over the two distinct datasets of wWorld with
the full component set. -/
theorem import_stage_ordering_witness :
    (∀ nm, findConfigBlob wWorld = some nm → (wWorld.configDatasets nm).Nodup) ∧
    ((∀ ds, allBefore (importTrace wWorld cAllComponents)
        (fun e => ∃ t, e = ImportEvent.tableLoad ds t)
        (fun e => e = ImportEvent.extTablesTask ds)) ∧
     (∀ ds, allBefore (importTrace wWorld cAllComponents)
        (fun e => e = ImportEvent.extTablesTask ds)
        (fun e => e = ImportEvent.viewsTask ds)) ∧
     (∀ ds, allBefore (importTrace wWorld cAllComponents)
        (fun e => e = ImportEvent.viewsTask ds)
        (fun e => e = ImportEvent.routinesTask ds)) ∧
     allBefore (importTrace wWorld cAllComponents)
        (fun e => e ≠ ImportEvent.schedImport) (fun e => e = ImportEvent.schedImport) ∧
     (∀ nm, findConfigBlob wWorld = some nm →
       (importTrace wWorld cAllComponents).count ImportEvent.schedImport
         = (if ("scheduled_queries") ∈ cAllComponents then 1 else 0))) :=
  ⟨fun nm _ => (by decide : ([("d1"), ("d2")] : List String).Nodup),
   import_stage_ordering wWorld cAllComponents
     (fun nm _ => (by decide : ([("d1"), ("d2")] : List String).Nodup))⟩
